import Mathlib

/-!
Shallow embedding of the `ChatCompletionAPI` class of the
`completion-gpt-api` repository (file `src/chat-completion-api.ts`, plus
`src/types.ts` and `src/exceptions/completion-error.ts`), together with
proofs settling the specification claims about it.

The class is stateful only through its in-memory `_messagesCache`
(a JavaScript object mapping conversation ids to message arrays); we model
it as a total function `String → List ChatMessage` whose default value is
`[]`, which is observationally equal to the `cache[id] || []` idiom of the
source.  The external OpenAI call is modelled by passing its outcome
(either a thrown error or a completion payload) as an explicit argument to
`sendMessage`.
-/

namespace CompletionGPT

/-- Embeds `Role` from `src/types.ts`: `'user' | 'assistant' | 'system'`. -/
inductive Role where
  | user
  | assistant
  | system
deriving DecidableEq, Repr

/-- Embeds `ChatMessage` from `src/types.ts`: role, content, optional name. -/
structure ChatMessage where
  role : Role
  content : String
  name : Option String := none
deriving DecidableEq, Repr

/-- The merged instance completion parameters
(`_completionParams : Omit<CreateChatCompletionRequest, 'messages' | 'n'>`).
After the constructor's spread, `model`, `temperature`, `top_p` and
`presence_penalty` are always present; the remaining recognized keys are
present only when the caller supplied them. -/
structure CompletionParams where
  model : String
  temperature : ℚ
  top_p : ℚ
  presence_penalty : ℚ
  stop : Option (List String) := none
  max_tokens : Option Int := none
  frequency_penalty : Option ℚ := none
deriving DecidableEq, Repr

/-- Embeds `ChatCompletionOpts` from `src/types.ts`: a partial record of the
completion parameters (every key optional); it has no `name`, `role` or
`content` key. -/
structure ChatCompletionOpts where
  model : Option String := none
  temperature : Option ℚ := none
  top_p : Option ℚ := none
  presence_penalty : Option ℚ := none
  stop : Option (List String) := none
  max_tokens : Option Int := none
  frequency_penalty : Option ℚ := none
deriving DecidableEq, Repr

/-- Embeds `ChatCompletionAPIOptions` from `src/types.ts`.  Every field is wrapped
in `Option` because a JavaScript caller may omit any of them at runtime
(the constructor destructures with defaults); `none` models an absent
field. -/
structure ChatCompletionAPIOptions where
  apiKey : Option String := none
  debug : Option Bool := none
  completionParams : Option ChatCompletionOpts := none
  systemMessage : Option String := none
  maxMessages : Option Int := none
deriving DecidableEq, Repr

/-- The state of a constructed `ChatCompletionAPI` instance. -/
structure ChatCompletionAPI where
  completionParams : CompletionParams
  systemMessage : String
  debug : Bool
  apiKey : String
  maxMessages : Int
  messagesCache : String → List ChatMessage

/-- Embeds `ChatMessageRequest` from `src/types.ts`.  `role` and `systemMessage`
are optional in the source. -/
structure ChatMessageRequest where
  name : String
  text : String
  conversationId : String
  role : Option Role := none
  systemMessage : Option String := none
deriving DecidableEq, Repr

/-- One choice of the OpenAI response; its `message` may be absent. -/
structure Choice where
  message : Option ChatMessage := none
deriving DecidableEq, Repr

/-- The `data` payload of the OpenAI response (`CreateChatCompletionResponse`). -/
structure RespData where
  choices : List Choice
  id : String := ""
  created : Int := 0
  model : String := ""
deriving DecidableEq, Repr

/-- The value resolved by `openai.createChatCompletion` (an axios-style
response): a `statusText` and an optional `data` payload. -/
structure Completion where
  statusText : String
  data : Option RespData := none
deriving DecidableEq, Repr

/-- The shape of a value thrown by the external call (transport or
validation failure): a message and optional `type` / `param` / `code`
classification fields. -/
structure JsError where
  message : String
  type : Option String := none
  param : Option String := none
  code : Option String := none
deriving DecidableEq, Repr

/-- Embeds `CompletionError` from `src/exceptions/completion-error.ts`:
message plus optional `type`, `param`, `code`. -/
structure CompletionError where
  message : String
  type : Option String := none
  param : Option String := none
  code : Option String := none
deriving DecidableEq, Repr

/-- The request object handed to `openai.createChatCompletion`:
`buildMessage` returns an object literal with exactly the keys `model`
and `messages` (lines 159-162 of the source). -/
structure CreateChatCompletionRequest where
  model : String
  messages : List ChatMessage
deriving DecidableEq, Repr

/-- Embeds `ChatResponseMessage` from `src/types.ts`. -/
structure ChatResponseMessage where
  content : String
  detail : RespData
  role : Role
deriving DecidableEq, Repr

def DEFAULT_MODEL : String := "gpt-3.5-turbo"

def DEFAULT_MAX_MESSAGES : Int := 100

def DEFAULT_SYSTEM_MESSAGE : String := "You are a helpful assistant."

/-- JavaScript truthiness test used by `if (!this._apiKey)`:
an absent (`undefined`) key and the empty string are both falsy. -/
def jsFalsyString : Option String → Bool
  | none => true
  | some s => s = ""

/-- The constructor's spread
`{ model: DEFAULT_MODEL, temperature: 0.8, top_p: 1.0, presence_penalty: 1.0, ...completionParams }`:
keys present in `completionParams` win, absent keys fall back to those
defaults (the other recognized keys have no default). -/
def mergeCompletionParams (cp : Option ChatCompletionOpts) : CompletionParams :=
  let o := cp.getD {}
  { model := o.model.getD DEFAULT_MODEL
    temperature := o.temperature.getD (4/5)
    top_p := o.top_p.getD 1
    presence_penalty := o.presence_penalty.getD 1
    stop := o.stop
    max_tokens := o.max_tokens
    frequency_penalty := o.frequency_penalty }

/-- The `ChatCompletionAPI` constructor (source lines 31-60): destructure
the options with defaults, merge the completion parameters, initialize an
empty cache, and throw `Error('OpenAI missing required apiKey')` when the
(already assigned) api key is falsy. -/
def mkChatCompletionAPI (opts : ChatCompletionAPIOptions) :
    Except String ChatCompletionAPI :=
  if jsFalsyString opts.apiKey then
    Except.error "OpenAI missing required apiKey"
  else
    Except.ok
      { completionParams := mergeCompletionParams opts.completionParams
        systemMessage := opts.systemMessage.getD DEFAULT_SYSTEM_MESSAGE
        debug := opts.debug.getD false
        apiKey := opts.apiKey.getD ""
        maxMessages := opts.maxMessages.getD DEFAULT_MAX_MESSAGES
        messagesCache := fun _ => [] }

/-- JavaScript `Array.prototype.slice(start)` with a single integer
argument: a negative `start` counts from the end (clamped at 0), a
non-negative `start` is clamped at the length.  In particular
`slice(-0) = slice(0)` returns the whole array, because `-0 === 0`. -/
def jsSliceFrom {α : Type} (l : List α) (start : Int) : List α :=
  if start < 0 then l.drop (max ((l.length : Int) + start) 0).toNat
  else l.drop (min start (l.length : Int)).toNat

/-- Embeds `getMessageHistory` (source lines 128-133): ensure the cache entry
exists (`cache[id] || []`, a no-op in the total-function model), and
return it, trimmed to the last `maxMessages - 1` entries via
`slice(-(maxMessages - 1))` when it is longer than that. -/
def getMessageHistory (api : ChatCompletionAPI) (conversationId : String) :
    List ChatMessage :=
  let maxMessages : Int := api.maxMessages - 1
  let messageHistory := api.messagesCache conversationId
  if (messageHistory.length : Int) > maxMessages then
    jsSliceFrom messageHistory (-maxMessages)
  else messageHistory

/-- Embeds `setMessageHistory` (source lines 141-143): overwrite the cache entry. -/
def setMessageHistory (api : ChatCompletionAPI) (conversationId : String)
    (messageHistory : List ChatMessage) : ChatCompletionAPI :=
  { api with
    messagesCache := fun c =>
      if c = conversationId then messageHistory else api.messagesCache c }

/-- Embeds `this.getMessageHistory(conversationId).push(msg)` (source lines
100-109).  When `getMessageHistory` does not trim, it returns the cached
array itself and the push lands in the cache; when it trims, it returns a
fresh `slice` copy and the push is lost, leaving the cache unchanged. -/
def pushToHistory (api : ChatCompletionAPI) (conversationId : String)
    (msg : ChatMessage) : ChatCompletionAPI :=
  let maxMessages : Int := api.maxMessages - 1
  let messageHistory := api.messagesCache conversationId
  if (messageHistory.length : Int) > maxMessages then api
  else
    { api with
      messagesCache := fun c =>
        if c = conversationId then messageHistory ++ [msg]
        else api.messagesCache c }

/-- Embeds the access `completion.data?.choices[0]?.message`. -/
def firstChoiceMessage (completion : Completion) : Option ChatMessage :=
  completion.data.bind fun d => d.choices.head?.bind fun ch => ch.message

/-- Embeds `buildMessage` (source lines 145-163): system entry, then the history
entries re-emitted field by field, then the new message's
name / role / content; the returned request carries exactly
`this._completionParams.model` and the composed list (no other
completion parameter is put into the request).  `message.role || 'user'`
is the identity here because every `Role` value is a non-empty, hence
truthy, string. -/
def buildMessage (api : ChatCompletionAPI) (conversationId : String)
    (message : ChatMessage) (systemMessage : Option String) :
    CreateChatCompletionRequest :=
  let sys := systemMessage.getD api.systemMessage
  let messagesInput : List ChatMessage :=
    ({ role := Role.system, content := sys } : ChatMessage)
      :: ((getMessageHistory api conversationId).map fun msg =>
            ({ name := msg.name, role := msg.role, content := msg.content } :
              ChatMessage))
      ++ [({ name := message.name, role := message.role,
             content := message.content } : ChatMessage)]
  { model := api.completionParams.model, messages := messagesInput }

/-- The request `sendMessage` hands to `openai.createChatCompletion`
(source lines 83-88).  The per-call `opts` are spread into the message
object `{name, content, role, ...opts}`; since `ChatCompletionOpts` has no
`name`, `role` or `content` key and `buildMessage` reads only those three
keys of its `message` argument, the spread keys never reach the request.
The `opts` parameter is kept so that this independence is a stated fact
rather than an omission. -/
def submittedRequest (api : ChatCompletionAPI) (chatRequest : ChatMessageRequest)
    (opts : ChatCompletionOpts) : CreateChatCompletionRequest :=
  match opts with
  | _ =>
    buildMessage api chatRequest.conversationId
      { name := some chatRequest.name
        content := chatRequest.text
        role := chatRequest.role.getD Role.user }
      chatRequest.systemMessage

/-- Embeds `sendMessage` (source lines 70-120).  `outcome` is the behaviour of
the awaited external call: `Except.error e` when it throws, `Except.ok c`
when it resolves to `c`.  The result pairs the post-call instance state
with either the `ChatResponseMessage` or the thrown `CompletionError`.
The `CompletionError(completion.statusText)` thrown inside the `try` when
no message body is present is caught by the same `catch` and re-wrapped as
`CompletionError(e.message, e.type, e.param, e.code)` with the three
classification fields `undefined`. -/
def sendMessage (api : ChatCompletionAPI) (chatRequest : ChatMessageRequest)
    (opts : ChatCompletionOpts) (outcome : Except JsError Completion) :
    ChatCompletionAPI × Except CompletionError ChatResponseMessage :=
  let role := chatRequest.role.getD Role.user
  let _request := submittedRequest api chatRequest opts
  match outcome with
  | Except.error e =>
      (api, Except.error
        { message := e.message, type := e.type, param := e.param, code := e.code })
  | Except.ok completion =>
    match firstChoiceMessage completion with
    | none =>
        (api, Except.error { message := completion.statusText })
    | some m =>
        let api1 := pushToHistory api chatRequest.conversationId
          { content := chatRequest.text, name := some chatRequest.name, role := role }
        let api2 := pushToHistory api1 chatRequest.conversationId
          { content := m.content, role := m.role }
        (api2, Except.ok
          { content := m.content
            detail := completion.data.getD { choices := [] }
            role := m.role })

/-! ## Helper lemmas -/

/-- Re-emitting a message field by field (as the history loop of
`buildMessage` does) reproduces the message. -/
theorem reemit_map_id (l : List ChatMessage) :
    (l.map fun msg =>
      ({ name := msg.name, role := msg.role, content := msg.content } :
        ChatMessage)) = l := by
  induction l with
  | nil => rfl
  | cons m t ih => simp [ih]

/-- A push through `getMessageHistory` leaves `maxMessages` unchanged. -/
theorem pushToHistory_maxMessages (api : ChatCompletionAPI) (cid : String)
    (msg : ChatMessage) :
    (pushToHistory api cid msg).maxMessages = api.maxMessages := by
  simp only [pushToHistory]
  split <;> rfl

/-- When the cached sequence is short enough that `getMessageHistory` does
not trim, the push lands in the cache. -/
theorem pushToHistory_cache (api : ChatCompletionAPI) (cid : String)
    (msg : ChatMessage)
    (h : ((api.messagesCache cid).length : Int) + 1 ≤ api.maxMessages) :
    (pushToHistory api cid msg).messagesCache cid =
      api.messagesCache cid ++ [msg] := by
  simp only [pushToHistory]
  rw [if_neg (by omega)]
  simp

/-- When the cached sequence does not exceed `maxMessages - 1`,
`getMessageHistory` returns it untrimmed. -/
theorem getMessageHistory_untrimmed (api : ChatCompletionAPI) (cid : String)
    (h : ((api.messagesCache cid).length : Int) ≤ api.maxMessages - 1) :
    getMessageHistory api cid = api.messagesCache cid := by
  simp only [getMessageHistory]
  rw [if_neg (by omega)]

/-- On a completion carrying a message body, `sendMessage` performs the
two history pushes and returns the reply. -/
theorem sendMessage_ok_shape (api : ChatCompletionAPI)
    (req : ChatMessageRequest) (opts : ChatCompletionOpts)
    (completion : Completion) (m : ChatMessage)
    (h : firstChoiceMessage completion = some m) :
    sendMessage api req opts (Except.ok completion) =
      (pushToHistory
        (pushToHistory api req.conversationId
          { content := req.text, name := some req.name,
            role := req.role.getD Role.user })
        req.conversationId { content := m.content, role := m.role },
       Except.ok
        { content := m.content
          detail := completion.data.getD { choices := [] }
          role := m.role }) := by
  simp only [sendMessage, h]

/-! ## Concrete inputs used by counterexamples and witnesses -/

def msgA : ChatMessage := { role := Role.user, content := "a" }

def msgB : ChatMessage := { role := Role.assistant, content := "b" }

/-- An instance with `maxMessages = 4` whose conversation `"c1"` already
holds two messages. -/
def apiC1 : ChatCompletionAPI :=
  { completionParams := mergeCompletionParams none
    systemMessage := DEFAULT_SYSTEM_MESSAGE
    debug := false
    apiKey := "k"
    maxMessages := 4
    messagesCache := fun c => if c = "c1" then [msgA, msgB] else [] }

def reqC1 : ChatMessageRequest :=
  { name := "n", text := "hi", conversationId := "c1" }

/-- A successful completion whose single choice replies with content `s`. -/
def okReply (s : String) : Completion :=
  { statusText := "OK"
    data := some
      { choices := [{ message := some { role := Role.assistant, content := s } }] } }

/-- A freshly constructed instance with the default `maxMessages = 100`
and an empty cache. -/
def apiFresh : ChatCompletionAPI :=
  { completionParams := mergeCompletionParams none
    systemMessage := DEFAULT_SYSTEM_MESSAGE
    debug := false
    apiKey := "k"
    maxMessages := 100
    messagesCache := fun _ => [] }

def reqFresh : ChatMessageRequest :=
  { name := "u", text := "hello", conversationId := "cw" }

def replyFresh : ChatMessage := { role := Role.assistant, content := "sure" }

/-- An instance with `maxMessages = 1` whose conversation `"c"` holds
three messages. -/
def api8 : ChatCompletionAPI :=
  { completionParams := mergeCompletionParams none
    systemMessage := DEFAULT_SYSTEM_MESSAGE
    debug := false
    apiKey := "k"
    maxMessages := 1
    messagesCache := fun c => if c = "c" then [msgA, msgB, msgA] else [] }

/-- A transport failure with a classification type. -/
def jsErrW : JsError := { message := "boom", type := some "server_error" }

/-- A per-call override object: different model and temperature. -/
def optsGpt4 : ChatCompletionOpts := { model := some "gpt-4", temperature := some (1/5) }

/-! ## C4 -/

/-- C4: for every `sendMessage` call, the list submitted to the completion
call is exactly one system-role message (per-request override if supplied,
else the instance default) followed by every message of
`getMessageHistory conversationId` re-emitted with its original name,
role and content, followed by the new entry built from the request
(`role` defaulting to `user`); in particular the list begins with a
system-role message. -/
theorem submitted_list_shape (api : ChatCompletionAPI)
    (req : ChatMessageRequest) (opts : ChatCompletionOpts) :
    (submittedRequest api req opts).messages =
      ({ role := Role.system,
         content := req.systemMessage.getD api.systemMessage,
         name := none } : ChatMessage)
        :: getMessageHistory api req.conversationId
        ++ [({ name := some req.name, role := req.role.getD Role.user,
               content := req.text } : ChatMessage)]
    ∧ ((submittedRequest api req opts).messages.head?.map ChatMessage.role
        = some Role.system) := by
  constructor
  · simp only [submittedRequest, buildMessage]
    rw [reemit_map_id]
  · simp only [submittedRequest, buildMessage]
    rfl

/-! ## C8 -/

/-- C8: with `maxMessages = 1`, `getMessageHistory` applies no trimming at
all and returns the entire stored sequence, because the slice bound
`-(maxMessages - 1)` is `-0 = 0` and `slice(0)` selects the whole array. -/
theorem maxMessages_one_no_trim (api : ChatCompletionAPI) (cid : String)
    (h : api.maxMessages = 1) :
    getMessageHistory api cid = api.messagesCache cid := by
  have h0 : api.maxMessages - 1 = 0 := by omega
  simp only [getMessageHistory, h0, jsSliceFrom, neg_zero]
  split
  · rw [if_neg (by omega)]
    have : (min (0 : Int) ((api.messagesCache cid).length : Int)).toNat = 0 := by
      rw [min_eq_left (by positivity)]
      rfl
    rw [this]
    rfl
  · rfl

/-- Witness for C8: a concrete instance with `maxMessages = 1` and three
stored messages. -/
theorem maxMessages_one_no_trim_witness :
    getMessageHistory api8 "c" = api8.messagesCache "c" :=
  maxMessages_one_no_trim api8 "c" rfl

/-! ## C9 -/

/-- C9: construction with an empty-string `apiKey` fails with exactly the
same missing-credential error as construction with the field absent: the
falsy check rejects both. -/
theorem empty_key_same_as_missing (d : Option Bool)
    (cp : Option ChatCompletionOpts) (sm : Option String) (mm : Option Int) :
    mkChatCompletionAPI
        { apiKey := some "", debug := d, completionParams := cp,
          systemMessage := sm, maxMessages := mm } =
      Except.error "OpenAI missing required apiKey"
    ∧ mkChatCompletionAPI
        { apiKey := none, debug := d, completionParams := cp,
          systemMessage := sm, maxMessages := mm } =
      Except.error "OpenAI missing required apiKey" :=
  ⟨rfl, rfl⟩

/-! ## C7 -/

/-- C7 counterexample: an `apiKey` equal to the empty string is supplied
(the field is not absent), yet construction fails; so construction does
not fail "if and only if no API key is supplied". -/
theorem constructor_empty_key_cex :
    mkChatCompletionAPI { apiKey := some "" } =
      Except.error "OpenAI missing required apiKey"
    ∧ ({ apiKey := some "" } : ChatCompletionAPIOptions).apiKey ≠ none :=
  ⟨rfl, by decide⟩

/-- C7 amended: construction fails, producing no instance, if and only if
the supplied API key is absent or empty; when construction succeeds with
only a (non-empty) `apiKey`, the configuration holds the defaults:
model `gpt-3.5-turbo`, temperature `0.8`, `top_p` `1.0`,
`presence_penalty` `1.0`, the default system message, and
`maxMessages = 100`. -/
theorem constructor_amended (opts : ChatCompletionAPIOptions) (k : String) :
    ((mkChatCompletionAPI opts).isOk = false ↔
      (opts.apiKey = none ∨ opts.apiKey = some ""))
    ∧ (k ≠ "" → mkChatCompletionAPI { apiKey := some k } =
        Except.ok
          { completionParams :=
              { model := "gpt-3.5-turbo", temperature := 4/5, top_p := 1,
                presence_penalty := 1 }
            systemMessage := "You are a helpful assistant."
            debug := false
            apiKey := k
            maxMessages := 100
            messagesCache := fun _ => [] }) := by
  constructor
  · simp only [mkChatCompletionAPI, jsFalsyString]
    cases h : opts.apiKey with
    | none => simp [Except.isOk, Except.toBool]
    | some s =>
      by_cases hs : s = "" <;> simp [hs, Except.isOk, Except.toBool]
  · intro hk
    simp only [mkChatCompletionAPI, jsFalsyString]
    rw [if_neg (by simp [hk])]
    rfl

/-- Witness for C7 amended: the concrete key `"k"`. -/
theorem constructor_amended_witness :
    mkChatCompletionAPI { apiKey := some "k" } =
      Except.ok
        { completionParams :=
            { model := "gpt-3.5-turbo", temperature := 4/5, top_p := 1,
              presence_penalty := 1 }
          systemMessage := "You are a helpful assistant."
          debug := false
          apiKey := "k"
          maxMessages := 100
          messagesCache := fun _ => [] } :=
  (constructor_amended { apiKey := some "k" } "k").2 (by decide)

/-! ## C2 -/

/-- Written from the spec (sendMessage step 3): the completion parameters
the specification says the external call receives — the instance defaults
merged with the per-call overrides, per-call values winning key by key and
unspecified keys falling back to the instance defaults. -/
def specEffectiveParams (instParams : CompletionParams)
    (opts : ChatCompletionOpts) : CompletionParams :=
  { model := opts.model.getD instParams.model
    temperature := opts.temperature.getD instParams.temperature
    top_p := opts.top_p.getD instParams.top_p
    presence_penalty := opts.presence_penalty.getD instParams.presence_penalty
    stop := opts.stop <|> instParams.stop
    max_tokens := opts.max_tokens <|> instParams.max_tokens
    frequency_penalty := opts.frequency_penalty <|> instParams.frequency_penalty }

/-- C2 exhibits the bug: the request actually handed to the external call
is the same for every per-call options object (the options are spread into
the message object and dropped), and at the failing input
`opts = {model: "gpt-4", temperature: 0.2}` the submitted model is still
the instance default `gpt-3.5-turbo` although the merge the spec
describes yields `gpt-4` (and temperature `0.2` over the instance
default `0.8`). -/
theorem perCallOpts_ignored_bug :
    (∀ o : ChatCompletionOpts,
      submittedRequest apiC1 reqC1 o = submittedRequest apiC1 reqC1 {})
    ∧ (submittedRequest apiC1 reqC1 optsGpt4).model = "gpt-3.5-turbo"
    ∧ (specEffectiveParams apiC1.completionParams optsGpt4).model = "gpt-4"
    ∧ (specEffectiveParams apiC1.completionParams optsGpt4).temperature = 1/5
    ∧ apiC1.completionParams.temperature = 4/5 := by
  exact ⟨fun o => rfl, rfl, rfl, rfl, rfl⟩

/-! ## C5 -/

/-- C5: whenever `sendMessage` fails with a `CompletionError` — for a
thrown transport / validation failure as well as for a completion with no
usable message body — the instance state, and with it every stored
conversation history, is exactly what it was before the call. -/
theorem failure_preserves_history (api : ChatCompletionAPI)
    (req : ChatMessageRequest) (opts : ChatCompletionOpts)
    (outcome : Except JsError Completion) (err : CompletionError)
    (h : (sendMessage api req opts outcome).2 = Except.error err) :
    (sendMessage api req opts outcome).1 = api := by
  cases outcome with
  | error e => rfl
  | ok completion =>
    cases hm : firstChoiceMessage completion with
    | none => simp [sendMessage, hm]
    | some m => simp [sendMessage, hm] at h

/-- Witness for C5: a concrete transport failure against `apiC1`. -/
theorem failure_preserves_history_witness :
    (sendMessage apiC1 reqC1 {} (Except.error jsErrW)).1 = apiC1 :=
  failure_preserves_history apiC1 reqC1 {} (Except.error jsErrW)
    { message := "boom", type := some "server_error" } rfl

/-! ## C6 -/

/-- C6: `sendMessage` fails exactly when the external call throws or when
it completes without a usable message body; in the second case the error
carries only the response status text (no type / param / code), and in
the first it forwards the failure message together with its optional
type, param and code fields. -/
theorem error_conditions (api : ChatCompletionAPI)
    (req : ChatMessageRequest) (opts : ChatCompletionOpts)
    (outcome : Except JsError Completion) :
    (((sendMessage api req opts outcome).2.isOk = false) ↔
      ((∃ e, outcome = Except.error e) ∨
       (∃ c, outcome = Except.ok c ∧ firstChoiceMessage c = none)))
    ∧ (∀ e, outcome = Except.error e →
        (sendMessage api req opts outcome).2 =
          Except.error
            { message := e.message, type := e.type, param := e.param,
              code := e.code })
    ∧ (∀ c, outcome = Except.ok c → firstChoiceMessage c = none →
        (sendMessage api req opts outcome).2 =
          Except.error
            { message := c.statusText, type := none, param := none,
              code := none }) := by
  refine ⟨?_, ?_, ?_⟩
  · cases outcome with
    | error e => simp [sendMessage, Except.isOk, Except.toBool]
    | ok completion =>
      cases hm : firstChoiceMessage completion with
      | none => simp [sendMessage, hm, Except.isOk, Except.toBool]
      | some m => simp [sendMessage, hm, Except.isOk, Except.toBool]
  · rintro e rfl
    rfl
  · rintro c rfl hm
    simp [sendMessage, hm]

/-- Witness for C6: the concrete transport failure `jsErrW` produces a
`CompletionError` that forwards its message and type. -/
theorem error_conditions_witness :
    (sendMessage apiC1 reqC1 {} (Except.error jsErrW)).2 =
      Except.error
        { message := "boom", type := some "server_error", param := none,
          code := none } :=
  (error_conditions apiC1 reqC1 {} (Except.error jsErrW)).2.1 jsErrW rfl

/-- On a completion carrying a message body, the post-call state is the
two-push state. -/
theorem sendMessage_ok_state (api : ChatCompletionAPI)
    (req : ChatMessageRequest) (opts : ChatCompletionOpts)
    (completion : Completion) (m : ChatMessage)
    (h : firstChoiceMessage completion = some m) :
    (sendMessage api req opts (Except.ok completion)).1 =
      pushToHistory
        (pushToHistory api req.conversationId
          { content := req.text, name := some req.name,
            role := req.role.getD Role.user })
        req.conversationId { content := m.content, role := m.role } := by
  rw [sendMessage_ok_shape api req opts completion m h]

/-! ## C1 -/

/-- C1 counterexample: with `maxMessages = 4` and two messages already
stored in conversation `"c1"`, a successful `sendMessage` call leaves
`getMessageHistory` three entries long, not two plus two — the claim
fails for this state of the history. -/
theorem sendMessage_growth_cex :
    (sendMessage apiC1 reqC1 {} (Except.ok (okReply "r"))).2.isOk = true
    ∧ (getMessageHistory (sendMessage apiC1 reqC1 {} (Except.ok (okReply "r"))).1
          "c1").length ≠
        (getMessageHistory apiC1 "c1").length + 2 := by
  constructor
  · decide
  · decide

/-- C1 amended: provided the conversation's stored message count is at
most `maxMessages - 3`, after a successful `sendMessage` call the history
returned by `getMessageHistory` grows by exactly two entries: first the
outgoing message with the request text, name and role (default `user`),
then the incoming message with the returned content and role, in that
order. -/
theorem sendMessage_appends_two_amended (api : ChatCompletionAPI)
    (req : ChatMessageRequest) (opts : ChatCompletionOpts)
    (completion : Completion) (m : ChatMessage)
    (h : firstChoiceMessage completion = some m)
    (hl : ((api.messagesCache req.conversationId).length : Int) + 3 ≤
      api.maxMessages) :
    getMessageHistory (sendMessage api req opts (Except.ok completion)).1
        req.conversationId =
      getMessageHistory api req.conversationId ++
        [{ content := req.text, name := some req.name,
           role := req.role.getD Role.user },
         { content := m.content, role := m.role }] := by
  rw [sendMessage_ok_state api req opts completion m h]
  have hmax1 := pushToHistory_maxMessages api req.conversationId
    { content := req.text, name := some req.name,
      role := req.role.getD Role.user }
  have hc1 := pushToHistory_cache api req.conversationId
    { content := req.text, name := some req.name,
      role := req.role.getD Role.user } (by omega)
  have hc2 := pushToHistory_cache
    (pushToHistory api req.conversationId
      { content := req.text, name := some req.name,
        role := req.role.getD Role.user })
    req.conversationId { content := m.content, role := m.role }
    (by
      rw [hc1, hmax1]
      simp only [List.length_append, List.length_cons, List.length_nil]
      omega)
  have hmax2 := pushToHistory_maxMessages
    (pushToHistory api req.conversationId
      { content := req.text, name := some req.name,
        role := req.role.getD Role.user })
    req.conversationId { content := m.content, role := m.role }
  rw [getMessageHistory_untrimmed _ req.conversationId
      (by
        rw [hc2, hc1, hmax2, hmax1]
        simp only [List.length_append, List.length_cons, List.length_nil]
        omega),
    hc2, hc1, getMessageHistory_untrimmed api req.conversationId (by omega)]
  simp

/-- Witness for C1 amended: a fresh conversation on an instance with the
default cap. -/
theorem sendMessage_appends_two_witness :
    getMessageHistory
        (sendMessage apiFresh reqFresh {} (Except.ok (okReply "sure"))).1
        reqFresh.conversationId =
      getMessageHistory apiFresh reqFresh.conversationId ++
        [{ content := reqFresh.text, name := some reqFresh.name,
           role := reqFresh.role.getD Role.user },
         { content := replyFresh.content, role := replyFresh.role }] :=
  sendMessage_appends_two_amended apiFresh reqFresh {} (okReply "sure")
    replyFresh (by decide) (by decide)

/-! ## C10 -/

/-- C10: for every per-call options object, the outgoing message a
successful `sendMessage` stores into the conversation cache is exactly
`{content: request.text, name: request.name, role: request.role or user}`
(followed by the incoming message): no per-call completion-option key ever
reaches the stored entry, although the options are spread into the message
object used to build the submitted list. -/
theorem stored_outgoing_fields (api : ChatCompletionAPI)
    (req : ChatMessageRequest) (opts : ChatCompletionOpts)
    (completion : Completion) (m : ChatMessage)
    (h : firstChoiceMessage completion = some m)
    (hl : ((api.messagesCache req.conversationId).length : Int) + 2 ≤
      api.maxMessages) :
    (sendMessage api req opts (Except.ok completion)).1.messagesCache
        req.conversationId =
      api.messagesCache req.conversationId ++
        [{ content := req.text, name := some req.name,
           role := req.role.getD Role.user },
         { content := m.content, role := m.role }] := by
  rw [sendMessage_ok_state api req opts completion m h]
  have hmax1 := pushToHistory_maxMessages api req.conversationId
    { content := req.text, name := some req.name,
      role := req.role.getD Role.user }
  have hc1 := pushToHistory_cache api req.conversationId
    { content := req.text, name := some req.name,
      role := req.role.getD Role.user } (by omega)
  rw [pushToHistory_cache _ req.conversationId _
      (by
        rw [hc1, hmax1]
        simp only [List.length_append, List.length_cons, List.length_nil]
        omega),
    hc1]
  simp

/-- Witness for C10: a non-trivial options object (`model` and
`temperature` overridden) leaves no trace in the stored entries. -/
theorem stored_outgoing_fields_witness :
    (sendMessage apiFresh reqFresh optsGpt4
          (Except.ok (okReply "sure"))).1.messagesCache
        reqFresh.conversationId =
      apiFresh.messagesCache reqFresh.conversationId ++
        [{ content := reqFresh.text, name := some reqFresh.name,
           role := reqFresh.role.getD Role.user },
         { content := replyFresh.content, role := replyFresh.role }] :=
  stored_outgoing_fields apiFresh reqFresh optsGpt4 (okReply "sure")
    replyFresh (by decide) (by decide)

/-! ## C3 -/

/-- An instance constructed with `apiKey = "k"`, `maxMessages = 3` and the
default system message (the C3 scenario). -/
def api3 : ChatCompletionAPI :=
  { completionParams := mergeCompletionParams none
    systemMessage := DEFAULT_SYSTEM_MESSAGE
    debug := false
    apiKey := "k"
    maxMessages := 3
    messagesCache := fun _ => [] }

def req3a : ChatMessageRequest := { name := "n", text := "t1", conversationId := "c1" }

def req3b : ChatMessageRequest := { name := "n", text := "t2", conversationId := "c1" }

/-- The state after the first successful `sendMessage` of the scenario. -/
def st3a : ChatCompletionAPI := (sendMessage api3 req3a {} (Except.ok (okReply "r1"))).1

/-- The state after the second successful `sendMessage` of the scenario. -/
def st3b : ChatCompletionAPI := (sendMessage st3a req3b {} (Except.ok (okReply "r2"))).1

/-- C3: evaluating the code on the scenario input shows the divergence:
both `sendMessage` calls succeed, but only three messages end up stored —
the second reply is pushed onto a temporary `slice` copy and lost — so
`getMessageHistory` returns the first reply and the second outgoing
message instead of the two most recent of the four messages the spec
says were appended. -/
theorem maxMessages_three_scenario_bug :
    (sendMessage api3 req3a {} (Except.ok (okReply "r1"))).2.isOk = true
    ∧ (sendMessage st3a req3b {} (Except.ok (okReply "r2"))).2.isOk = true
    ∧ (st3b.messagesCache "c1").length = 3
    ∧ getMessageHistory st3b "c1" =
        [{ role := Role.assistant, content := "r1" },
         { role := Role.user, content := "t2", name := some "n" }]
    ∧ getMessageHistory st3b "c1" ≠
        [{ role := Role.user, content := "t2", name := some "n" },
         { role := Role.assistant, content := "r2" }] := by
  refine ⟨?_, ?_, ?_, ?_, ?_⟩ <;> decide

end CompletionGPT
